import Mathlib

/-!
Verification of the geotagging application's core logic (src/geo_app.py):
random point sampling in a radius, longitude normalization, cyclic
city-list target assignment, pin-mode target assignment, and the
sign-magnitude GPS tag encoding used when writing metadata.

Python floats are modelled as real numbers; the two uniform draws
`random.random()` inside `get_random_point_in_radius` are passed as
explicit arguments `u v`.
-/

/-- A coordinate is a (latitude, longitude) pair of reals. -/
abbrev Coordinate : Type := ℝ × ℝ

/-- Embedding of Python's `math.radians`: degrees to radians. -/
noncomputable def radians (x : ℝ) : ℝ := x * Real.pi / 180

/-- Embedding of `get_random_point_in_radius(lat, lon, radius_km)` from
src/geo_app.py lines 19-32, with the two `random.random()` draws made
explicit arguments `u` and `v`. -/
noncomputable def get_random_point_in_radius (lat lon radius_km u v : ℝ) : Coordinate :=
  if radius_km ≤ 0 then (lat, lon)
  else
    let radius_earth_km : ℝ := 6371
    let r := radius_km / radius_earth_km
    let w := r * Real.sqrt u
    let t := 2 * Real.pi * v
    let x := w * Real.cos t
    let y := w * Real.sin t
    let new_lat := x / Real.pi * 180 + lat
    let new_lon := y / Real.pi * 180 / Real.cos (radians lat) + lon
    (new_lat, new_lon)

/-- The closed-form sample point exactly as the spec words it:
r = radius_km/6371, w = r·√u, t = 2π·v, x = w·cos t, y = w·sin t,
new_lat = lat + x·180/π, new_lon = lon + y·180/(π·cos(lat in radians)). -/
noncomputable def specSamplePoint (lat lon radius_km u v : ℝ) : Coordinate :=
  let r := radius_km / 6371
  let w := r * Real.sqrt u
  let t := 2 * Real.pi * v
  let x := w * Real.cos t
  let y := w * Real.sin t
  (lat + x * 180 / Real.pi, lon + y * 180 / (Real.pi * Real.cos (radians lat)))

/-- Helper: the sampler on a positive radius, unfolded to its formula. -/
theorem get_random_point_in_radius_of_pos (lat lon radius_km u v : ℝ)
    (h : 0 < radius_km) :
    get_random_point_in_radius lat lon radius_km u v =
      (radius_km / 6371 * Real.sqrt u * Real.cos (2 * Real.pi * v) / Real.pi * 180 + lat,
       radius_km / 6371 * Real.sqrt u * Real.sin (2 * Real.pi * v) / Real.pi * 180 /
         Real.cos (radians lat) + lon) := by
  unfold get_random_point_in_radius
  rw [if_neg (not_le.mpr h)]

/-- C1: for every center and every positive radius, with the uniform draws
u, v explicit, the sampler returns exactly the spec's closed-form point,
with no clamping: in particular a concrete input yields a latitude above
90 that is passed through as-is. -/
theorem sample_eq_spec_formula :
    (∀ lat lon radius_km u v : ℝ, 0 < radius_km →
      get_random_point_in_radius lat lon radius_km u v =
        specSamplePoint lat lon radius_km u v)
    ∧ 90 < (get_random_point_in_radius 90 0 6371 (1/4) 0).1 := by
  constructor
  · intro lat lon radius_km u v h
    rw [get_random_point_in_radius_of_pos lat lon radius_km u v h]
    simp only [specSamplePoint, Prod.mk.injEq]
    constructor <;> ring
  · rw [get_random_point_in_radius_of_pos 90 0 6371 (1/4) 0 (by norm_num)]
    have hs : Real.sqrt (1/4) = 1/2 := by
      rw [show (1/4 : ℝ) = (1/2)^2 by norm_num]
      exact Real.sqrt_sq (by norm_num)
    have hc : Real.cos (2 * Real.pi * 0) = 1 := by
      rw [mul_zero, Real.cos_zero]
    simp only [hs, hc]
    have hpi : 0 < Real.pi := Real.pi_pos
    have : 0 < (6371 : ℝ) / 6371 * (1/2) * 1 / Real.pi * 180 := by positivity
    linarith

/-- Witness for C1 at a concrete input. -/
theorem sample_eq_spec_formula_witness :
    get_random_point_in_radius 10 20 1 0 0 = specSamplePoint 10 20 1 0 0 :=
  sample_eq_spec_formula.1 10 20 1 0 0 (by norm_num)

/-- C2: for every radius ≤ 0 the sampler returns the center exactly,
regardless of the random draws. -/
theorem sample_nonpos_radius (lat lon radius_km u v : ℝ) (h : radius_km ≤ 0) :
    get_random_point_in_radius lat lon radius_km u v = (lat, lon) := by
  unfold get_random_point_in_radius
  rw [if_pos h]

/-- Witness for C2 at radius 0. -/
theorem sample_nonpos_radius_witness :
    get_random_point_in_radius 1 2 0 (37/100) (42/100) = (1, 2) :=
  sample_nonpos_radius 1 2 0 (37/100) (42/100) (by norm_num)

/-- Python's float modulo `x % y`: for nonzero `y` it is `x - y*⌊x/y⌋`,
the representative with the sign of the divisor. -/
noncomputable def pymod (x y : ℝ) : ℝ := x - y * ⌊x / y⌋

/-- Embedding of the map-click longitude normalization from src/geo_app.py
line 130: `clicked_lon = ((raw_lon + 180) % 360) - 180`. -/
noncomputable def normalizeClickedLon (lon : ℝ) : ℝ := pymod (lon + 180) 360 - 180

/-- Helper: `pymod x 360` is 360 times the fractional part of `x / 360`. -/
theorem pymod_360_eq_fract (x : ℝ) : pymod x 360 = 360 * Int.fract (x / 360) := by
  unfold pymod Int.fract
  ring

/-- Helper: floor of 365/360 over the reals. -/
theorem floor_365_div_360 : ⌊(365 : ℝ) / 360⌋ = 1 := by
  rw [Int.floor_eq_iff]; norm_num

/-- Helper: floor of -5/360 over the reals. -/
theorem floor_neg_5_div_360 : ⌊(-5 : ℝ) / 360⌋ = -1 := by
  rw [Int.floor_eq_iff]; norm_num

/-- Helper: floor of 360/360 over the reals. -/
theorem floor_360_div_360 : ⌊(360 : ℝ) / 360⌋ = 1 := by
  rw [Int.floor_eq_iff]; norm_num

/-- Helper: floor of 180/360 over the reals. -/
theorem floor_180_div_360 : ⌊(180 : ℝ) / 360⌋ = 0 := by
  rw [Int.floor_eq_iff]; norm_num

/-- C8: the map-click longitude normalization `((lon + 180) mod 360) - 180`
lands in [-180, 180) for every real input, and takes the spec's four
example values. -/
theorem normalize_lon_spec :
    (∀ lon : ℝ, -180 ≤ normalizeClickedLon lon ∧ normalizeClickedLon lon < 180)
    ∧ normalizeClickedLon 185 = -175
    ∧ normalizeClickedLon (-185) = 175
    ∧ normalizeClickedLon 180 = -180
    ∧ normalizeClickedLon 0 = 0 := by
  refine ⟨fun lon => ?_, ?_, ?_, ?_, ?_⟩
  · unfold normalizeClickedLon
    rw [pymod_360_eq_fract]
    have h0 : (0 : ℝ) ≤ Int.fract ((lon + 180) / 360) := Int.fract_nonneg _
    have h1 : Int.fract ((lon + 180) / 360) < 1 := Int.fract_lt_one _
    constructor <;> nlinarith
  · unfold normalizeClickedLon pymod
    norm_num [floor_365_div_360]
  · unfold normalizeClickedLon pymod
    norm_num [floor_neg_5_div_360]
  · unfold normalizeClickedLon pymod
    norm_num [floor_360_div_360]
  · unfold normalizeClickedLon pymod
    norm_num [floor_180_div_360]

/-- The sampler with the division by `cos(radians(lat))` made explicit: the
code at src/geo_app.py line 31 divides with no guard, so the embedding
returns `none` exactly when that divisor is zero on the branch that
divides. -/
noncomputable def samplePointChecked (lat lon radius_km u v : ℝ) : Option Coordinate :=
  if radius_km ≤ 0 then some (lat, lon)
  else if Real.cos (radians lat) = 0 then none
  else some (get_random_point_in_radius lat lon radius_km u v)

/-- C10: whenever the radius is positive and the cosine of the center
latitude (in radians) is nonzero, the division-by-zero branch is
unreachable and the checked sampler agrees with the code's sampler; the
cosine is positive (hence nonzero) for every |lat| < 90, while at lat = 90
the divisor is exactly zero and the checked sampler has no defined
result. -/
theorem cos_divisor_guard :
    (∀ lat lon radius_km u v : ℝ, 0 < radius_km → Real.cos (radians lat) ≠ 0 →
      samplePointChecked lat lon radius_km u v =
        some (get_random_point_in_radius lat lon radius_km u v))
    ∧ (∀ lat : ℝ, |lat| < 90 → 0 < Real.cos (radians lat))
    ∧ Real.cos (radians 90) = 0
    ∧ (∀ lon radius_km u v : ℝ, 0 < radius_km →
        samplePointChecked 90 lon radius_km u v = none) := by
  have h90 : radians 90 = Real.pi / 2 := by unfold radians; ring
  refine ⟨?_, ?_, ?_, ?_⟩
  · intro lat lon radius_km u v hr hc
    unfold samplePointChecked
    rw [if_neg (not_le.mpr hr), if_neg hc]
  · intro lat hlat
    rw [abs_lt] at hlat
    have hp : 0 < Real.pi := Real.pi_pos
    apply Real.cos_pos_of_mem_Ioo
    unfold radians
    constructor
    · nlinarith [hlat.1]
    · nlinarith [hlat.2]
  · rw [h90, Real.cos_pi_div_two]
  · intro lon radius_km u v hr
    unfold samplePointChecked
    rw [if_neg (not_le.mpr hr), if_pos (by rw [h90, Real.cos_pi_div_two])]

/-- Witness for C10 at center latitude 0 and radius 1. -/
theorem cos_divisor_guard_witness :
    samplePointChecked 0 5 1 0 0 = some (get_random_point_in_radius 0 5 1 0 0) :=
  cos_divisor_guard.1 0 5 1 0 0 (by norm_num) (by simp [radians])

/-- Embedding of the `unique_coords` dict built at src/geo_app.py lines
155-174: the de-duplicated city list (`list(set(city_names))`, whose order
Python leaves arbitrary, modelled here by `List.dedup`) is passed through
the geocoder `resolve`, keeping the pairs that resolved, as an association
list in insertion order. -/
def buildUniqueCoords (resolve : String → Option Coordinate)
    (cityNames : List String) : List (String × Coordinate) :=
  cityNames.dedup.filterMap (fun city => (resolve city).map (fun c => (city, c)))

/-- The loop body for file index `i` at src/geo_app.py lines 184-188: the
cyclic city name, its dict entry if present, else the first resolved value
when the dict is non-empty, else nothing appended. -/
def cityTarget (cityNames : List String)
    (uniqueCoords : List (String × Coordinate)) (i : Nat) : Option Coordinate :=
  let city := cityNames.getD (i % cityNames.length) ("")
  match List.lookup city uniqueCoords with
  | some c => some c
  | none => uniqueCoords.head?.map Prod.snd

/-- The value appended for index `i` when the dict is non-empty: the dict
entry of the cyclic name, defaulting to the first resolved value. -/
def cityTargetTotal (cityNames : List String)
    (uniqueCoords : List (String × Coordinate)) (i : Nat) : Coordinate :=
  (List.lookup (cityNames.getD (i % cityNames.length) ("")) uniqueCoords).getD
    (uniqueCoords.headD (("", (0, 0)))).2

/-- Embedding of the `final_targets` loop of city-list mode,
src/geo_app.py lines 183-188. -/
def finalTargetsCity (fileCount : Nat) (cityNames : List String)
    (uniqueCoords : List (String × Coordinate)) : List Coordinate :=
  (List.range fileCount).filterMap (cityTarget cityNames uniqueCoords)

/-- The two failures of city-list mode: no usable city names
(src/geo_app.py lines 152-153) and no name resolving at all (lines
179-180). -/
inductive AssignError where
  | validationError : AssignError
  | resolutionError : AssignError

/-- City-list mode end to end, src/geo_app.py lines 144-188: an empty
name list is the validation warning, an empty resolved dict is the
resolution error (no targets produced), otherwise the cyclic target
list. -/
def assignCityList (fileCount : Nat) (cityNames : List String)
    (resolve : String → Option Coordinate) : Except AssignError (List Coordinate) :=
  if cityNames.isEmpty then .error .validationError
  else if (buildUniqueCoords resolve cityNames).isEmpty then .error .resolutionError
  else .ok (finalTargetsCity fileCount cityNames (buildUniqueCoords resolve cityNames))

/-- Helper: looking up a name absent from the city list finds nothing. -/
theorem lookup_filterMap_of_not_mem (resolve : String → Option Coordinate)
    (name : String) (l : List String) (h : name ∉ l) :
    List.lookup name
      (l.filterMap (fun city => (resolve city).map (fun c => (city, c)))) = none := by
  induction l with
  | nil => rfl
  | cons a l ih =>
    simp only [List.mem_cons, not_or] at h
    obtain ⟨hne, hnl⟩ := h
    cases hr : resolve a with
    | none => simpa [List.filterMap_cons, hr] using ih hnl
    | some c =>
      have hb : (name == a) = false := beq_eq_false_iff_ne.mpr hne
      simp only [List.filterMap_cons, hr, Option.map_some', List.lookup, hb]
      exact ih hnl

/-- Helper: on a duplicate-free city list, dict lookup of a listed name
returns exactly what the geocoder returned for it. -/
theorem lookup_filterMap_resolve (resolve : String → Option Coordinate)
    (name : String) (l : List String) (hnd : l.Nodup) (hm : name ∈ l) :
    List.lookup name
      (l.filterMap (fun city => (resolve city).map (fun c => (city, c)))) =
      resolve name := by
  induction l with
  | nil => cases hm
  | cons a l ih =>
    rcases List.mem_cons.mp hm with rfl | hm'
    · have hnl : name ∉ l := (List.nodup_cons.mp hnd).1
      cases hr : resolve name with
      | none =>
        simp only [List.filterMap_cons, hr, Option.map_none']
        exact lookup_filterMap_of_not_mem resolve name l hnl
      | some c =>
        simp only [List.filterMap_cons, hr, Option.map_some', List.lookup, beq_self_eq_true]
    · have hne : name ≠ a := by
        rintro rfl
        exact (List.nodup_cons.mp hnd).1 hm'
      cases hr : resolve a with
      | none =>
        simpa [List.filterMap_cons, hr] using ih (List.nodup_cons.mp hnd).2 hm'
      | some c =>
        have hb : (name == a) = false := beq_eq_false_iff_ne.mpr hne
        simp only [List.filterMap_cons, hr, Option.map_some', List.lookup, hb]
        exact ih (List.nodup_cons.mp hnd).2 hm'

/-- Helper: dict lookup of a listed name returns what the geocoder
returned for it. -/
theorem lookup_buildUniqueCoords (resolve : String → Option Coordinate)
    (cityNames : List String) (name : String) (hm : name ∈ cityNames) :
    List.lookup name (buildUniqueCoords resolve cityNames) = resolve name :=
  lookup_filterMap_resolve resolve name cityNames.dedup cityNames.nodup_dedup
    (List.mem_dedup.mpr hm)

/-- Helper: if some listed name resolved, the dict is non-empty. -/
theorem buildUniqueCoords_ne_nil (resolve : String → Option Coordinate)
    (cityNames : List String) (name : String) (c : Coordinate)
    (hm : name ∈ cityNames) (hr : resolve name = some c) :
    buildUniqueCoords resolve cityNames ≠ [] := by
  intro h
  have hlk := lookup_buildUniqueCoords resolve cityNames name hm
  rw [h, hr] at hlk
  cases hlk

/-- Helper: every dict entry is a listed name with its geocoder result. -/
theorem mem_buildUniqueCoords (resolve : String → Option Coordinate)
    (cityNames : List String) (p : String × Coordinate)
    (hp : p ∈ buildUniqueCoords resolve cityNames) :
    p.1 ∈ cityNames ∧ resolve p.1 = some p.2 := by
  unfold buildUniqueCoords at hp
  rcases List.mem_filterMap.mp hp with ⟨city, hcity, hmap⟩
  rcases Option.map_eq_some'.mp hmap with ⟨c, hc, hpair⟩
  cases hpair
  exact ⟨List.mem_dedup.mp hcity, hc⟩

/-- Helper: when the dict is non-empty, every index appends exactly one
coordinate, the one `cityTargetTotal` describes. -/
theorem cityTarget_eq_some (cityNames : List String)
    (uniqueCoords : List (String × Coordinate)) (i : Nat)
    (hne : uniqueCoords ≠ []) :
    cityTarget cityNames uniqueCoords i =
      some (cityTargetTotal cityNames uniqueCoords i) := by
  unfold cityTarget cityTargetTotal
  dsimp only
  split
  · next c h =>
      rw [h]
      rfl
  · next h =>
      rw [h]
      cases uniqueCoords with
      | nil => exact absurd rfl hne
      | cons p t => rfl

/-- Helper: with a non-empty dict the city-list target list is a map over
the file indices. -/
theorem finalTargetsCity_eq_map (fileCount : Nat) (cityNames : List String)
    (uniqueCoords : List (String × Coordinate)) (hne : uniqueCoords ≠ []) :
    finalTargetsCity fileCount cityNames uniqueCoords =
      (List.range fileCount).map (cityTargetTotal cityNames uniqueCoords) := by
  unfold finalTargetsCity
  have h : cityTarget cityNames uniqueCoords =
      some ∘ cityTargetTotal cityNames uniqueCoords :=
    funext fun i => cityTarget_eq_some cityNames uniqueCoords i hne
  rw [h, List.filterMap_eq_map]

/-- Helper: with a non-empty dict the city-list target list has one entry
per file. -/
theorem finalTargetsCity_length (fileCount : Nat) (cityNames : List String)
    (uniqueCoords : List (String × Coordinate)) (hne : uniqueCoords ≠ []) :
    (finalTargetsCity fileCount cityNames uniqueCoords).length = fileCount := by
  rw [finalTargetsCity_eq_map fileCount cityNames uniqueCoords hne]
  simp

/-- Helper: with a non-empty dict, entry `i` of the city-list target list
is the target for file `i`. -/
theorem finalTargetsCity_getElem (fileCount : Nat) (cityNames : List String)
    (uniqueCoords : List (String × Coordinate)) (i : Nat)
    (hne : uniqueCoords ≠ []) (hi : i < fileCount) :
    (finalTargetsCity fileCount cityNames uniqueCoords)[i]? =
      some (cityTargetTotal cityNames uniqueCoords i) := by
  rw [finalTargetsCity_eq_map fileCount cityNames uniqueCoords hne]
  rw [List.getElem?_map, List.getElem?_range hi]
  rfl

/-- Helper: the cyclic name for any index is a listed name. -/
theorem cyclic_name_mem (cityNames : List String) (i : Nat)
    (hne : cityNames ≠ []) :
    cityNames.getD (i % cityNames.length) ("") ∈ cityNames := by
  have hlen : 0 < cityNames.length := List.length_pos.mpr hne
  have hlt : i % cityNames.length < cityNames.length := Nat.mod_lt _ hlen
  rw [List.getD_eq_getElem cityNames ("") hlt]
  exact List.getElem_mem hlt

/-- C3: in city-list mode the target name for file index i is
place_names[i mod len(place_names)], and a resolved name's coordinate is
emitted at that position; in particular names [a, b] resolving to X and Y
with five files yield [X, Y, X, Y, X]. -/
theorem city_list_cyclic_assignment :
    (∀ (fileCount : Nat) (cityNames : List String)
      (resolve : String → Option Coordinate) (i : Nat) (c : Coordinate),
      i < fileCount → cityNames ≠ [] →
      resolve (cityNames.getD (i % cityNames.length) ("")) = some c →
      (finalTargetsCity fileCount cityNames
        (buildUniqueCoords resolve cityNames))[i]? = some c)
    ∧ (∀ X Y : Coordinate,
      finalTargetsCity 5 (["a", "b"])
        (buildUniqueCoords
          (fun s => if s = ("a") then some X else if s = ("b") then some Y else none)
          (["a", "b"])) = [X, Y, X, Y, X]) := by
  constructor
  · intro fileCount cityNames resolve i c hi hne hc
    have hmem := cyclic_name_mem cityNames i hne
    have hlk := lookup_buildUniqueCoords resolve cityNames _ hmem
    have hune : buildUniqueCoords resolve cityNames ≠ [] :=
      buildUniqueCoords_ne_nil resolve cityNames _ c hmem hc
    rw [finalTargetsCity_getElem _ _ _ _ hune hi]
    unfold cityTargetTotal
    rw [hlk, hc]
    rfl
  · intro X Y
    rfl

/-- Witness for C3: with names [a, b] resolved to (1,2) and (3,4) and five
files, file index 2 wraps around to name a and receives (1,2). -/
theorem city_list_cyclic_assignment_witness :
    (finalTargetsCity 5 (["a", "b"])
      (buildUniqueCoords
        (fun s => if s = ("a") then some ((1, 2) : Coordinate)
          else if s = ("b") then some ((3, 4) : Coordinate) else none)
        (["a", "b"])))[2]? = some ((1, 2) : Coordinate) :=
  city_list_cyclic_assignment.1 5 (["a", "b"])
    (fun s => if s = ("a") then some ((1, 2) : Coordinate)
      else if s = ("b") then some ((3, 4) : Coordinate) else none)
    2 ((1, 2)) (by norm_num) (List.cons_ne_nil _ _) (by rfl)

/-- C4: with at least one resolved name, city-list mode never fails, and
every file index whose cyclic name did not resolve receives one fixed,
arbitrarily-chosen resolved coordinate taken from the resolved dict. -/
theorem city_list_fallback (fileCount : Nat) (cityNames : List String)
    (resolve : String → Option Coordinate)
    (hres : ∃ name ∈ cityNames, ∃ c : Coordinate, resolve name = some c) :
    assignCityList fileCount cityNames resolve =
      .ok (finalTargetsCity fileCount cityNames (buildUniqueCoords resolve cityNames))
    ∧ ∃ p : String × Coordinate,
        p ∈ buildUniqueCoords resolve cityNames ∧
        p.1 ∈ cityNames ∧ resolve p.1 = some p.2 ∧
        ∀ i, i < fileCount →
          resolve (cityNames.getD (i % cityNames.length) ("")) = none →
          (finalTargetsCity fileCount cityNames
            (buildUniqueCoords resolve cityNames))[i]? = some p.2 := by
  obtain ⟨name, hmem, c, hc⟩ := hres
  have hnames : cityNames ≠ [] := List.ne_nil_of_mem hmem
  have hune : buildUniqueCoords resolve cityNames ≠ [] :=
    buildUniqueCoords_ne_nil resolve cityNames name c hmem hc
  obtain ⟨p, t, hpt⟩ := List.exists_cons_of_ne_nil hune
  have hpmem : p ∈ buildUniqueCoords resolve cityNames := by
    rw [hpt]
    exact List.mem_cons_self p t
  have hpr := mem_buildUniqueCoords resolve cityNames p hpmem
  constructor
  · unfold assignCityList
    rw [if_neg (by simp only [List.isEmpty_iff]; exact hnames),
      if_neg (by simp only [List.isEmpty_iff]; exact hune)]
  · refine ⟨p, hpmem, hpr.1, hpr.2, fun i hi hnone => ?_⟩
    rw [finalTargetsCity_getElem _ _ _ _ hune hi]
    unfold cityTargetTotal
    rw [lookup_buildUniqueCoords resolve cityNames _ (cyclic_name_mem cityNames i hnames),
      hnone, hpt]
    rfl

/-- Witness for C4: names [a, b] with only a resolving succeeds. -/
theorem city_list_fallback_witness :
    assignCityList 4 (["a", "b"])
      (fun s => if s = ("a") then some ((5, 6) : Coordinate) else none) =
      .ok (finalTargetsCity 4 (["a", "b"])
        (buildUniqueCoords
          (fun s => if s = ("a") then some ((5, 6) : Coordinate) else none)
          (["a", "b"]))) :=
  (city_list_fallback 4 (["a", "b"])
    (fun s => if s = ("a") then some ((5, 6) : Coordinate) else none)
    ⟨("a"), List.mem_cons_self _ _, (5, 6), by rfl⟩).1

/-- C5: if no listed name resolved at all, city-list mode fails with the
resolution error and yields no target list whatsoever. -/
theorem city_list_no_resolution (fileCount : Nat) (cityNames : List String)
    (resolve : String → Option Coordinate) (hne : cityNames ≠ [])
    (hnone : ∀ name ∈ cityNames, resolve name = none) :
    assignCityList fileCount cityNames resolve = .error .resolutionError
    ∧ ∀ ts : List Coordinate, assignCityList fileCount cityNames resolve ≠ .ok ts := by
  have hbuild : buildUniqueCoords resolve cityNames = [] := by
    unfold buildUniqueCoords
    rw [List.filterMap_eq_nil_iff]
    intro city hcity
    rw [hnone city (List.mem_dedup.mp hcity)]
    rfl
  have hmain : assignCityList fileCount cityNames resolve = .error .resolutionError := by
    unfold assignCityList
    rw [if_neg (by simp only [List.isEmpty_iff]; exact hne), hbuild]
    rfl
  refine ⟨hmain, fun ts h => ?_⟩
  rw [hmain] at h
  cases h

/-- Witness for C5: one name that never resolves. -/
theorem city_list_no_resolution_witness :
    assignCityList 2 (["a"]) (fun _ => none) = .error .resolutionError :=
  (city_list_no_resolution 2 (["a"]) (fun _ => none)
    (List.cons_ne_nil _ _) (fun _ _ => rfl)).1

/-- Embedding of the pin-mode loop at src/geo_app.py lines 140-142: one
independent sampler call per uploaded file, file `i` consuming its own
pair of uniform draws. -/
noncomputable def finalTargetsPin (fileCount : Nat) (lat lon radius_km : ℝ)
    (draws : Nat → ℝ × ℝ) : List Coordinate :=
  (List.range fileCount).map
    (fun i => get_random_point_in_radius lat lon radius_km (draws i).1 (draws i).2)

/-- C6: pin mode emits one coordinate per file, entry i being the sampler
applied to the shared center and radius with draw i (independent draws,
not one shared offset); with radius 0 the result is exactly fileCount
copies of the center. -/
theorem pin_mode_independent_draws (fileCount : Nat) (lat lon radius_km : ℝ)
    (draws : Nat → ℝ × ℝ) :
    ((finalTargetsPin fileCount lat lon radius_km draws).length = fileCount
      ∧ ∀ i, i < fileCount →
        (finalTargetsPin fileCount lat lon radius_km draws)[i]? =
          some (get_random_point_in_radius lat lon radius_km (draws i).1 (draws i).2))
    ∧ finalTargetsPin fileCount lat lon 0 draws = List.replicate fileCount (lat, lon) := by
  refine ⟨⟨by simp [finalTargetsPin], fun i hi => ?_⟩, ?_⟩
  · unfold finalTargetsPin
    rw [List.getElem?_map, List.getElem?_range hi]
    rfl
  · unfold finalTargetsPin
    rw [List.eq_replicate_iff]
    refine ⟨by simp, fun b hb => ?_⟩
    rcases List.mem_map.mp hb with ⟨i, _, rfl⟩
    unfold get_random_point_in_radius
    rw [if_pos le_rfl]

/-- Witness for C6: one file at a concrete center, radius and draw. -/
theorem pin_mode_independent_draws_witness :
    (finalTargetsPin 1 3 4 2 (fun _ => (0, 0)))[0]? =
      some (get_random_point_in_radius 3 4 2 0 0) :=
  (pin_mode_independent_draws 1 3 4 2 (fun _ => (0, 0))).1.2 0 (by norm_num)

/-- C7: in both modes the produced assignment list pairs files and targets
1:1 by position: pin mode always, city-list mode whenever at least one
name resolved, the fallback being substituted positionally rather than
the item omitted. -/
theorem assignment_positional_invariant :
    (∀ (fileCount : Nat) (lat lon radius_km : ℝ) (draws : Nat → ℝ × ℝ),
      (finalTargetsPin fileCount lat lon radius_km draws).length = fileCount
      ∧ ∀ i, i < fileCount →
        (finalTargetsPin fileCount lat lon radius_km draws)[i]? =
          some (get_random_point_in_radius lat lon radius_km (draws i).1 (draws i).2))
    ∧ (∀ (fileCount : Nat) (cityNames : List String)
      (resolve : String → Option Coordinate),
      (∃ name ∈ cityNames, ∃ c : Coordinate, resolve name = some c) →
      (finalTargetsCity fileCount cityNames
        (buildUniqueCoords resolve cityNames)).length = fileCount
      ∧ ∀ i, i < fileCount →
        (finalTargetsCity fileCount cityNames
          (buildUniqueCoords resolve cityNames))[i]? =
          some (cityTargetTotal cityNames (buildUniqueCoords resolve cityNames) i)) := by
  constructor
  · intro fileCount lat lon radius_km draws
    refine ⟨by simp [finalTargetsPin], fun i hi => ?_⟩
    unfold finalTargetsPin
    rw [List.getElem?_map, List.getElem?_range hi]
    rfl
  · intro fileCount cityNames resolve hres
    obtain ⟨name, hmem, c, hc⟩ := hres
    have hune : buildUniqueCoords resolve cityNames ≠ [] :=
      buildUniqueCoords_ne_nil resolve cityNames name c hmem hc
    exact ⟨finalTargetsCity_length fileCount cityNames _ hune,
      fun i hi => finalTargetsCity_getElem fileCount cityNames _ i hune hi⟩

/-- Witness for C7: three files over one resolving name give three
targets. -/
theorem assignment_positional_invariant_witness :
    (finalTargetsCity 3 (["a"])
      (buildUniqueCoords
        (fun s => if s = ("a") then some ((1, 1) : Coordinate) else none)
        (["a"]))).length = 3 :=
  (assignment_positional_invariant.2 3 (["a"])
    (fun s => if s = ("a") then some ((1, 1) : Coordinate) else none)
    ⟨("a"), List.mem_cons_self _ _, (1, 1), by rfl⟩).1

/-- The GPS tags written per file by `et.set_tags` at src/geo_app.py lines
67-75: magnitudes plus hemisphere reference characters. -/
structure GpsTags where
  gpsLatitude : ℝ
  gpsLatitudeRef : String
  gpsLongitude : ℝ
  gpsLongitudeRef : String

/-- Embedding of the reference logic at src/geo_app.py lines 62-74:
`lat_ref = "N" if lat >= 0 else "S"`, `lon_ref = "E" if lon >= 0 else
"W"`, and magnitudes stored as absolute values. -/
noncomputable def tagsFor (lat lon : ℝ) : GpsTags where
  gpsLatitude := |lat|
  gpsLatitudeRef := if lat ≥ 0 then ("N") else ("S")
  gpsLongitude := |lon|
  gpsLongitudeRef := if lon ≥ 0 then ("E") else ("W")

/-- Embedding of the tagging loop of `process_images`, src/geo_app.py
lines 46-78: each file, by position, is paired with the sign-magnitude
tags of its positional target. -/
noncomputable def process_images (fileNames : List String)
    (targets : List Coordinate) : List (String × GpsTags) :=
  (List.range fileNames.length).map
    (fun i => (fileNames.getD i (""),
      tagsFor (targets.getD i ((0, 0))).1 (targets.getD i ((0, 0))).2))

/-- C9: metadata is written in sign-magnitude form: GPSLatitude is |lat|
with reference N for lat ≥ 0 and S for lat < 0, GPSLongitude is |lon|
with reference E for lon ≥ 0 and W for lon < 0; in particular three files
targeted at (34.05, -118.24) are each tagged 34.05 N, 118.24 W. -/
theorem gps_sign_magnitude :
    (∀ lat lon : ℝ,
      (tagsFor lat lon).gpsLatitude = |lat|
      ∧ (0 ≤ lat → (tagsFor lat lon).gpsLatitudeRef = ("N"))
      ∧ (lat < 0 → (tagsFor lat lon).gpsLatitudeRef = ("S"))
      ∧ (tagsFor lat lon).gpsLongitude = |lon|
      ∧ (0 ≤ lon → (tagsFor lat lon).gpsLongitudeRef = ("E"))
      ∧ (lon < 0 → (tagsFor lat lon).gpsLongitudeRef = ("W")))
    ∧ process_images (["f1", "f2", "f3"])
        (List.replicate 3 ((681 / 20, -(2956 / 25)) : Coordinate)) =
      [(("f1"), tagsFor (681 / 20) (-(2956 / 25))),
       (("f2"), tagsFor (681 / 20) (-(2956 / 25))),
       (("f3"), tagsFor (681 / 20) (-(2956 / 25)))]
    ∧ tagsFor (681 / 20) (-(2956 / 25)) =
      ⟨681 / 20, ("N"), 2956 / 25, ("W")⟩ := by
  refine ⟨fun lat lon => ?_, ?_, ?_⟩
  · refine ⟨rfl, fun h => ?_, fun h => ?_, rfl, fun h => ?_, fun h => ?_⟩
    · unfold tagsFor
      dsimp only
      rw [if_pos h]
    · unfold tagsFor
      dsimp only
      rw [if_neg (not_le.mpr h)]
    · unfold tagsFor
      dsimp only
      rw [if_pos h]
    · unfold tagsFor
      dsimp only
      rw [if_neg (not_le.mpr h)]
  · rfl
  · have h1 : |(681 / 20 : ℝ)| = 681 / 20 := abs_of_nonneg (by norm_num)
    have h2 : |(-(2956 / 25) : ℝ)| = 2956 / 25 := by
      rw [abs_neg]
      exact abs_of_nonneg (by norm_num)
    unfold tagsFor
    rw [if_pos (by norm_num : (681 / 20 : ℝ) ≥ 0),
      if_neg (by norm_num : ¬(-(2956 / 25) : ℝ) ≥ 0), h1, h2]

/-- Witness for C9: the example target's latitude reference is N. -/
theorem gps_sign_magnitude_witness :
    (tagsFor (681 / 20) (-(2956 / 25))).gpsLatitudeRef = ("N") :=
  (gps_sign_magnitude.1 (681 / 20) (-(2956 / 25))).2.1 (by norm_num)
